import Mathlib

/-!
Verification of the core routines of the photo-processor repository.

The embedding covers, faithfully to the TypeScript source:
  * `calculateGuidance` from the web face-detection plugin
    (padding, size-ratio checks, per-edge overflow with a stable
    descending sort, center-offset check);
  * `detectFace` from the same plugin, with its effectful collaborators
    (model load, image load, face estimation) made explicit parameters;
  * `compressImage` from the image-processing service (binary search on
    encoder quality with a fixed iteration bound, best-so-far tracking,
    early exit within tolerance).

Numbers are modelled as exact rationals; byte sizes as naturals.
-/

/-- Normalized face rectangle, fields as in the FaceBounds interface. -/
structure FaceBounds where
  x : ℚ
  y : ℚ
  width : ℚ
  height : ℚ
deriving DecidableEq

/-- Oval target, fields as in the OvalBounds interface. -/
structure OvalBounds where
  centerX : ℚ
  centerY : ℚ
  radiusX : ℚ
  radiusY : ℚ
deriving DecidableEq

/-- The guidance enum of the plugin interface. -/
inductive FaceGuidance where
  | no_face
  | move_closer
  | move_back
  | move_left
  | move_right
  | move_up
  | move_down
  | hold_still
  | multiple_faces
deriving DecidableEq

/-- headPaddingTop = face.height * 0.40 (forehead and hair). -/
def headPaddingTop (face : FaceBounds) : ℚ := face.height * (40 / 100)

/-- headPaddingBottom = face.height * 0.08 (chin). -/
def headPaddingBottom (face : FaceBounds) : ℚ := face.height * (8 / 100)

/-- headPaddingSide = face.width * 0.10 (ears). -/
def headPaddingSide (face : FaceBounds) : ℚ := face.width * (10 / 100)

/-- faceLeft = face.x - headPaddingSide. -/
def faceLeft (face : FaceBounds) : ℚ := face.x - headPaddingSide face

/-- faceRight = face.x + face.width + headPaddingSide. -/
def faceRight (face : FaceBounds) : ℚ := face.x + face.width + headPaddingSide face

/-- faceTop = face.y - headPaddingTop. -/
def faceTop (face : FaceBounds) : ℚ := face.y - headPaddingTop face

/-- faceBottom = face.y + face.height + headPaddingBottom. -/
def faceBottom (face : FaceBounds) : ℚ := face.y + face.height + headPaddingBottom face

/-- faceCenterX = (faceLeft + faceRight) / 2. -/
def faceCenterX (face : FaceBounds) : ℚ := (faceLeft face + faceRight face) / 2

/-- faceCenterY = (faceTop + faceBottom) / 2. -/
def faceCenterY (face : FaceBounds) : ℚ := (faceTop face + faceBottom face) / 2

/-- ovalLeft = oval.centerX - oval.radiusX. -/
def ovalLeft (oval : OvalBounds) : ℚ := oval.centerX - oval.radiusX

/-- ovalRight = oval.centerX + oval.radiusX. -/
def ovalRight (oval : OvalBounds) : ℚ := oval.centerX + oval.radiusX

/-- ovalTop = oval.centerY - oval.radiusY. -/
def ovalTop (oval : OvalBounds) : ℚ := oval.centerY - oval.radiusY

/-- ovalBottom = oval.centerY + oval.radiusY. -/
def ovalBottom (oval : OvalBounds) : ℚ := oval.centerY + oval.radiusY

/-- headWidth = faceRight - faceLeft. -/
def headWidth (face : FaceBounds) : ℚ := faceRight face - faceLeft face

/-- headHeight = faceBottom - faceTop. -/
def headHeight (face : FaceBounds) : ℚ := faceBottom face - faceTop face

/-- headSize = max(headWidth, headHeight). -/
def headSize (face : FaceBounds) : ℚ := max (headWidth face) (headHeight face)

/-- ovalSize = max(oval.radiusX * 2, oval.radiusY * 2). -/
def ovalSize (oval : OvalBounds) : ℚ := max (oval.radiusX * 2) (oval.radiusY * 2)

/-- sizeRatio = headSize / ovalSize. -/
def sizeRatio (face : FaceBounds) (oval : OvalBounds) : ℚ :=
  headSize face / ovalSize oval

/-- leftOverflow = ovalLeft - faceLeft (positive: face too far left). -/
def leftOverflow (face : FaceBounds) (oval : OvalBounds) : ℚ :=
  ovalLeft oval - faceLeft face

/-- rightOverflow = faceRight - ovalRight (positive: face too far right). -/
def rightOverflow (face : FaceBounds) (oval : OvalBounds) : ℚ :=
  faceRight face - ovalRight oval

/-- topOverflow = ovalTop - faceTop (positive: face too high). -/
def topOverflow (face : FaceBounds) (oval : OvalBounds) : ℚ :=
  ovalTop oval - faceTop face

/-- bottomOverflow = faceBottom - ovalBottom (positive: face too low). -/
def bottomOverflow (face : FaceBounds) (oval : OvalBounds) : ℚ :=
  faceBottom face - ovalBottom oval

/-- The source builds the array
    [(leftOverflow, move_right), (rightOverflow, move_left),
     (topOverflow, move_down), (bottomOverflow, move_up)],
sorts it descending by value with a stable sort (ECMAScript sort is
stable, comparator (a, b) => b.value - a.value), and reads element 0.
Element 0 of a stable descending sort is the first element attaining the
maximum, computed here by a fold that replaces the accumulator only on a
strictly larger value. -/
def firstMaxOverflow (face : FaceBounds) (oval : OvalBounds) : ℚ × FaceGuidance :=
  List.foldl (fun a b => if a.1 < b.1 then b else a)
    (leftOverflow face oval, FaceGuidance.move_right)
    [(rightOverflow face oval, FaceGuidance.move_left),
     (topOverflow face oval, FaceGuidance.move_down),
     (bottomOverflow face oval, FaceGuidance.move_up)]

/-- calculateGuidance from the web face-detection plugin: size-ratio
checks first (below 0.8 move_closer, above 1.15 move_back), then the
largest positive per-edge overflow, then the center-offset check with
threshold 0.15 preferring the larger offset axis, else hold_still. -/
def calculateGuidance (face : FaceBounds) (oval : OvalBounds) : FaceGuidance :=
  if sizeRatio face oval < 4 / 5 then FaceGuidance.move_closer
  else if 23 / 20 < sizeRatio face oval then FaceGuidance.move_back
  else if 0 < (firstMaxOverflow face oval).1 then (firstMaxOverflow face oval).2
  else
    let xOffset := |faceCenterX face - oval.centerX|
    let yOffset := |faceCenterY face - oval.centerY|
    if 15 / 100 < xOffset ∨ 15 / 100 < yOffset then
      if xOffset < yOffset then
        (if faceCenterY face < oval.centerY then FaceGuidance.move_down
         else FaceGuidance.move_up)
      else
        (if faceCenterX face < oval.centerX then FaceGuidance.move_right
         else FaceGuidance.move_left)
    else FaceGuidance.hold_still

/-- A loaded image, as far as detectFace reads it (img.width, img.height). -/
structure DetectImage where
  width : ℚ
  height : ℚ
deriving DecidableEq

/-- One BlazeFace prediction: topLeft and bottomRight corners in pixels,
and the optional probability entry read as prediction.probability?.[0]. -/
structure Prediction where
  topLeftX : ℚ
  topLeftY : ℚ
  bottomRightX : ℚ
  bottomRightY : ℚ
  probability : Option ℚ
deriving DecidableEq

/-- The FaceDetectionResult interface: faceDetected, optional bounds,
guidance, optional confidence. -/
structure FaceDetectionResult where
  faceDetected : Bool
  bounds : Option FaceBounds
  guidance : FaceGuidance
  confidence : Option ℚ
deriving DecidableEq

/-- The safe default result the web plugin returns on any failure:
faceDetected = false, guidance = no_face, no bounds, no confidence. -/
def noFaceResult : FaceDetectionResult :=
  { faceDetected := false, bounds := none,
    guidance := FaceGuidance.no_face, confidence := none }

/-- detectFace from the web face-detection plugin.  Its effectful
collaborators are explicit parameters: `modelLoaded` is whether
this.model is already non-null, `initSuccess` the outcome the lazy
model-load would report, `loadedImage` the result of loadImage (throw
modelled as Except.error), `estimate` the result of
this.model.estimateFaces (throw modelled as Except.error).  Both throws
happen inside the try block, whose catch returns the safe default.  The
`sensitivity` parameter is declared by the plugin interface; the web
implementation never reads it. -/
def detectFace (modelLoaded initSuccess : Bool)
    (loadedImage : Except Unit DetectImage)
    (estimate : Except Unit (List Prediction))
    (oval : OvalBounds) (sensitivity : Option ℚ) : FaceDetectionResult :=
  if !modelLoaded && !initSuccess then noFaceResult
  else
    match loadedImage with
    | Except.error _ => noFaceResult
    | Except.ok img =>
      match estimate with
      | Except.error _ => noFaceResult
      | Except.ok predictions =>
        match predictions with
        | [] => noFaceResult
        | [p] =>
          let bounds : FaceBounds :=
            { x := p.topLeftX / img.width,
              y := p.topLeftY / img.height,
              width := (p.bottomRightX - p.topLeftX) / img.width,
              height := (p.bottomRightY - p.topLeftY) / img.height }
          { faceDetected := true, bounds := some bounds,
            guidance := calculateGuidance bounds oval,
            confidence := some (p.probability.getD (9 / 10)) }
        | _ :: _ :: _ =>
          { faceDetected := true, bounds := none,
            guidance := FaceGuidance.multiple_faces, confidence := none }

/-- Distance of a byte size from the target: Math.abs(size - targetBytes)
on exact integers. -/
def distTo (targetBytes size : ℕ) : ℕ :=
  ((size : ℤ) - (targetBytes : ℤ)).natAbs

/-- State of the quality binary search: minQuality, maxQuality, quality,
and the best blob so far, a blob being identified by the quality it was
encoded at together with its byte size. -/
structure SearchState where
  minQ : ℚ
  maxQ : ℚ
  q : ℚ
  best : Option (ℚ × ℕ)
deriving DecidableEq

/-- The best-so-far update: keep the new blob when there is no best yet
or when it is strictly closer to the target than the current best. -/
def updateBest (targetBytes : ℕ) (q : ℚ) (size : ℕ) :
    Option (ℚ × ℕ) → Option (ℚ × ℕ)
  | none => some (q, size)
  | some (bq, bs) =>
    if distTo targetBytes size < distTo targetBytes bs then some (q, size)
    else some (bq, bs)

/-- The binary-search adjustment at the end of a loop iteration:
blob.size > targetBytes shrinks maxQuality to quality and halves down,
otherwise raises minQuality to quality and halves up; in both branches
the best blob is updated first. -/
def nextState (targetBytes : ℕ) (s : SearchState) (size : ℕ) : SearchState :=
  if targetBytes < size then
    { minQ := s.minQ, maxQ := s.q, q := (s.minQ + s.q) / 2,
      best := updateBest targetBytes s.q size s.best }
  else
    { minQ := s.q, maxQ := s.maxQ, q := (s.maxQ + s.q) / 2,
      best := updateBest targetBytes s.q size s.best }

/-- The compression search loop (for i = 0; i < n; i++).  `encode`
is canvasToBlob at a given quality, returning the byte size of the blob.
Returns the list of qualities passed to the encoder, in order (one per
iteration), and the final blob: the within-tolerance blob on early
break, else the best blob tracked when the fuel runs out. -/
def compressLoop (encode : ℚ → ℕ) (targetBytes tolerance : ℕ) :
    ℕ → SearchState → List ℚ × Option (ℚ × ℕ)
  | 0, s => ([], s.best)
  | Nat.succ n, s =>
    let size := encode s.q
    if distTo targetBytes size < tolerance then ([s.q], some (s.q, size))
    else
      let r := compressLoop encode targetBytes tolerance n
        (nextState targetBytes s size)
      (s.q :: r.1, r.2)

/-- Initial search state: minQuality 0.10, maxQuality 0.95, quality 0.70,
no best blob yet. -/
def compressInit : SearchState :=
  { minQ := 1 / 10, maxQ := 19 / 20, q := 7 / 10, best := none }

/-- compressImage with the iteration bound as a parameter (the source
hard-codes 8): targetBytes = targetSizeKB * 1024, tolerance 1024; when
the loop yields no blob the explicit error is thrown, otherwise the
chosen blob (its quality and byte size) is returned. -/
def compressImageAux (encode : ℚ → ℕ) (targetSizeKB iters : ℕ) :
    Except String (ℚ × ℕ) :=
  match (compressLoop encode (targetSizeKB * 1024) 1024 iters compressInit).2 with
  | none => Except.error "Failed to compress image"
  | some r => Except.ok r

/-- compressImage from the image-processing service: the search runs for
at most 8 iterations. -/
def compressImage (encode : ℚ → ℕ) (targetSizeKB : ℕ) : Except String (ℚ × ℕ) :=
  compressImageAux encode targetSizeKB 8

/-- The qualities compressImage passes to the encoder, in order. -/
def compressTrace (encode : ℚ → ℕ) (targetSizeKB : ℕ) : List ℚ :=
  (compressLoop encode (targetSizeKB * 1024) 1024 8 compressInit).1

/-- The returned blob is the first one in the probe list attaining the
minimal distance to the target: everything probed strictly before it is
strictly farther, everything after it no closer. -/
def firstMin (encode : ℚ → ℕ) (targetBytes : ℕ) (l : List ℚ) (q : ℚ) : Prop :=
  ∃ l₁ l₂, l = l₁ ++ q :: l₂ ∧
    (∀ p ∈ l₁, distTo targetBytes (encode q) < distTo targetBytes (encode p)) ∧
    (∀ p ∈ l₂, distTo targetBytes (encode q) ≤ distTo targetBytes (encode p))

/-- The list holding the quality of the tracked best blob, if any:
the single probe of past history the best-so-far option remembers. -/
def bestList : Option (ℚ × ℕ) → List ℚ
  | none => []
  | some (bq, _) => [bq]

/-- The oval the home page uses for face positioning. -/
def ovalBounds : OvalBounds :=
  { centerX := 1 / 2, centerY := 1 / 2, radiusX := 8 / 25, radiusY := 21 / 50 }

/-- A face rectangle whose own center sits exactly on the oval center
and whose size ratio is inside the acceptable band, but whose padded
head box is wider than the oval bounding rectangle. -/
def faceCenteredWide : FaceBounds :=
  { x := 1 / 5, y := 3 / 10, width := 3 / 5, height := 2 / 5 }

/-- A face rectangle sticking out past the left edge of the oval while
sticking out even farther past the top edge, size ratio in band. -/
def faceUpLeft : FaceBounds :=
  { x := 21 / 100, y := 9 / 50, width := 1 / 2, height := 1 / 2 }

/-- A face rectangle whose top overflow is positive and strictly larger
than every other overflow, size ratio in band. -/
def faceHigh : FaceBounds :=
  { x := 9 / 50, y := 9 / 50, width := 1 / 2, height := 1 / 2 }

/-- A face rectangle whose padded head box is centered on the oval
center, fits inside the oval bounding rectangle, and has its size ratio
inside the acceptable band. -/
def faceWellPlaced : FaceBounds :=
  { x := 1 / 4, y := 33 / 100, width := 1 / 2, height := 1 / 2 }

/-- A face rectangle far too small for the oval. -/
def faceSmall : FaceBounds :=
  { x := 2 / 5, y := 2 / 5, width := 1 / 10, height := 1 / 10 }

/-- A face rectangle far too large for the oval. -/
def faceLarge : FaceBounds :=
  { x := 1 / 10, y := 1 / 10, width := 4 / 5, height := 4 / 5 }

lemma firstMaxOverflow_eq_left (face : FaceBounds) (oval : OvalBounds)
    (h1 : rightOverflow face oval ≤ leftOverflow face oval)
    (h2 : topOverflow face oval ≤ leftOverflow face oval)
    (h3 : bottomOverflow face oval ≤ leftOverflow face oval) :
    firstMaxOverflow face oval = (leftOverflow face oval, FaceGuidance.move_right) := by
  unfold firstMaxOverflow
  simp only [List.foldl_cons, List.foldl_nil]
  rw [if_neg (not_lt.mpr h1), if_neg (not_lt.mpr h2), if_neg (not_lt.mpr h3)]

lemma firstMaxOverflow_eq_right (face : FaceBounds) (oval : OvalBounds)
    (h1 : leftOverflow face oval < rightOverflow face oval)
    (h2 : topOverflow face oval ≤ rightOverflow face oval)
    (h3 : bottomOverflow face oval ≤ rightOverflow face oval) :
    firstMaxOverflow face oval = (rightOverflow face oval, FaceGuidance.move_left) := by
  unfold firstMaxOverflow
  simp only [List.foldl_cons, List.foldl_nil]
  rw [if_pos h1, if_neg (not_lt.mpr h2), if_neg (not_lt.mpr h3)]

lemma firstMaxOverflow_eq_top (face : FaceBounds) (oval : OvalBounds)
    (h1 : leftOverflow face oval < topOverflow face oval)
    (h2 : rightOverflow face oval < topOverflow face oval)
    (h3 : bottomOverflow face oval ≤ topOverflow face oval) :
    firstMaxOverflow face oval = (topOverflow face oval, FaceGuidance.move_down) := by
  unfold firstMaxOverflow
  simp only [List.foldl_cons, List.foldl_nil]
  by_cases hc : leftOverflow face oval < rightOverflow face oval
  · rw [if_pos hc, if_pos h2, if_neg (not_lt.mpr h3)]
  · rw [if_neg hc, if_pos h1, if_neg (not_lt.mpr h3)]

lemma firstMaxOverflow_eq_bottom (face : FaceBounds) (oval : OvalBounds)
    (h1 : leftOverflow face oval < bottomOverflow face oval)
    (h2 : rightOverflow face oval < bottomOverflow face oval)
    (h3 : topOverflow face oval < bottomOverflow face oval) :
    firstMaxOverflow face oval = (bottomOverflow face oval, FaceGuidance.move_up) := by
  unfold firstMaxOverflow
  simp only [List.foldl_cons, List.foldl_nil]
  by_cases hc : leftOverflow face oval < rightOverflow face oval
  · rw [if_pos hc]
    by_cases hd : rightOverflow face oval < topOverflow face oval
    · rw [if_pos hd, if_pos h3]
    · rw [if_neg hd, if_pos h2]
  · rw [if_neg hc]
    by_cases hd : leftOverflow face oval < topOverflow face oval
    · rw [if_pos hd, if_pos h3]
    · rw [if_neg hd, if_pos h1]

/-- C1: with the size ratio inside the acceptable band and at least one
positive per-edge overflow, calculateGuidance returns the direction for
the edge with the largest positive overflow, ties resolved in favor of
the first edge in the listed order left, right, top, bottom. -/
theorem calculateGuidance_largest_overflow (face : FaceBounds) (oval : OvalBounds)
    (hlo : 4 / 5 ≤ sizeRatio face oval) (hhi : sizeRatio face oval ≤ 23 / 20)
    (hpos : 0 < leftOverflow face oval ∨ 0 < rightOverflow face oval ∨
      0 < topOverflow face oval ∨ 0 < bottomOverflow face oval) :
    (rightOverflow face oval ≤ leftOverflow face oval ∧
     topOverflow face oval ≤ leftOverflow face oval ∧
     bottomOverflow face oval ≤ leftOverflow face oval →
       calculateGuidance face oval = FaceGuidance.move_right) ∧
    (leftOverflow face oval < rightOverflow face oval ∧
     topOverflow face oval ≤ rightOverflow face oval ∧
     bottomOverflow face oval ≤ rightOverflow face oval →
       calculateGuidance face oval = FaceGuidance.move_left) ∧
    (leftOverflow face oval < topOverflow face oval ∧
     rightOverflow face oval < topOverflow face oval ∧
     bottomOverflow face oval ≤ topOverflow face oval →
       calculateGuidance face oval = FaceGuidance.move_down) ∧
    (leftOverflow face oval < bottomOverflow face oval ∧
     rightOverflow face oval < bottomOverflow face oval ∧
     topOverflow face oval < bottomOverflow face oval →
       calculateGuidance face oval = FaceGuidance.move_up) := by
  have hn1 : ¬ sizeRatio face oval < 4 / 5 := not_lt.mpr hlo
  have hn2 : ¬ 23 / 20 < sizeRatio face oval := not_lt.mpr hhi
  refine ⟨fun h => ?_, fun h => ?_, fun h => ?_, fun h => ?_⟩ <;>
    obtain ⟨ha, hb, hc⟩ := h
  · have hp : 0 < leftOverflow face oval := by
      rcases hpos with hp | hp | hp | hp <;> linarith
    unfold calculateGuidance
    rw [if_neg hn1, if_neg hn2, firstMaxOverflow_eq_left face oval ha hb hc, if_pos hp]
  · have hp : 0 < rightOverflow face oval := by
      rcases hpos with hp | hp | hp | hp <;> linarith
    unfold calculateGuidance
    rw [if_neg hn1, if_neg hn2, firstMaxOverflow_eq_right face oval ha hb hc, if_pos hp]
  · have hp : 0 < topOverflow face oval := by
      rcases hpos with hp | hp | hp | hp <;> linarith
    unfold calculateGuidance
    rw [if_neg hn1, if_neg hn2, firstMaxOverflow_eq_top face oval ha hb hc, if_pos hp]
  · have hp : 0 < bottomOverflow face oval := by
      rcases hpos with hp | hp | hp | hp <;> linarith
    unfold calculateGuidance
    rw [if_neg hn1, if_neg hn2, firstMaxOverflow_eq_bottom face oval ha hb hc, if_pos hp]

/-- C1 witness: a concrete face whose top overflow is the strictly
largest and positive yields move_down. -/
theorem calculateGuidance_largest_overflow_witness :
    calculateGuidance faceHigh ovalBounds = FaceGuidance.move_down :=
  (calculateGuidance_largest_overflow faceHigh ovalBounds
    (by norm_num [sizeRatio, headSize, ovalSize, headWidth, headHeight, faceLeft,
      faceRight, faceTop, faceBottom, headPaddingSide, headPaddingTop,
      headPaddingBottom, faceHigh, ovalBounds, max_def])
    (by norm_num [sizeRatio, headSize, ovalSize, headWidth, headHeight, faceLeft,
      faceRight, faceTop, faceBottom, headPaddingSide, headPaddingTop,
      headPaddingBottom, faceHigh, ovalBounds, max_def])
    (Or.inr (Or.inr (Or.inl (by norm_num [topOverflow, ovalTop, faceTop,
      headPaddingTop, faceHigh, ovalBounds]))))).2.2.1
    (by norm_num [leftOverflow, rightOverflow, topOverflow, bottomOverflow,
      ovalLeft, ovalRight, ovalTop, ovalBottom, faceLeft, faceRight, faceTop,
      faceBottom, headPaddingSide, headPaddingTop, headPaddingBottom,
      faceHigh, ovalBounds])

/-- C4: the size checks come first and are decided by the size ratio
alone: a ratio below 0.8 yields move_closer and a ratio above 1.15
yields move_back, whatever the position of the face. -/
theorem calculateGuidance_size_checks (face : FaceBounds) (oval : OvalBounds) :
    ( sizeRatio face oval < 4 / 5 →
      calculateGuidance face oval = FaceGuidance.move_closer) ∧
    (23 / 20 < sizeRatio face oval →
      calculateGuidance face oval = FaceGuidance.move_back) := by
  constructor
  · intro h
    unfold calculateGuidance
    rw [if_pos h]
  · intro h
    have h1 : ¬ sizeRatio face oval < 4 / 5 := not_lt.mpr (by linarith)
    unfold calculateGuidance
    rw [if_neg h1, if_pos h]

/-- C4 witness: a face far too small yields move_closer, a face far too
large yields move_back, against the oval the home page uses. -/
theorem calculateGuidance_size_checks_witness :
    calculateGuidance faceSmall ovalBounds = FaceGuidance.move_closer ∧
    calculateGuidance faceLarge ovalBounds = FaceGuidance.move_back :=
  ⟨(calculateGuidance_size_checks faceSmall ovalBounds).1
    (by norm_num [sizeRatio, headSize, ovalSize, headWidth, headHeight, faceLeft,
      faceRight, faceTop, faceBottom, headPaddingSide, headPaddingTop,
      headPaddingBottom, faceSmall, ovalBounds, max_def]),
   (calculateGuidance_size_checks faceLarge ovalBounds).2
    (by norm_num [sizeRatio, headSize, ovalSize, headWidth, headHeight, faceLeft,
      faceRight, faceTop, faceBottom, headPaddingSide, headPaddingTop,
      headPaddingBottom, faceLarge, ovalBounds, max_def])⟩

/-- C6 counterexample: faceUpLeft sticks out past the left edge of the
oval (positive left overflow) with its size ratio inside the band, yet
calculateGuidance returns move_down, not move_right, because the top
overflow is larger. -/
theorem calculateGuidance_overflow_not_opposite :
    0 < leftOverflow faceUpLeft ovalBounds ∧
    4 / 5 ≤ sizeRatio faceUpLeft ovalBounds ∧
    sizeRatio faceUpLeft ovalBounds ≤ 23 / 20 ∧
    calculateGuidance faceUpLeft ovalBounds = FaceGuidance.move_down ∧
    calculateGuidance faceUpLeft ovalBounds ≠ FaceGuidance.move_right := by
  norm_num [calculateGuidance, firstMaxOverflow, List.foldl_cons, List.foldl_nil,
    sizeRatio, headSize, ovalSize, headWidth, headHeight, faceLeft, faceRight,
    faceTop, faceBottom, faceCenterX, faceCenterY, headPaddingSide,
    headPaddingTop, headPaddingBottom, leftOverflow, rightOverflow, topOverflow,
    bottomOverflow, ovalLeft, ovalRight, ovalTop, ovalBottom, faceUpLeft,
    ovalBounds, max_def, abs]
  decide

/-- C6 amended: when the size ratio is inside the acceptable band and
one edge has a positive overflow strictly larger than the overflow of
every other edge, calculateGuidance returns the direction opposite that
edge. -/
theorem calculateGuidance_dominant_overflow (face : FaceBounds) (oval : OvalBounds)
    (hlo : 4 / 5 ≤ sizeRatio face oval) (hhi : sizeRatio face oval ≤ 23 / 20) :
    (0 < leftOverflow face oval ∧
     rightOverflow face oval < leftOverflow face oval ∧
     topOverflow face oval < leftOverflow face oval ∧
     bottomOverflow face oval < leftOverflow face oval →
       calculateGuidance face oval = FaceGuidance.move_right) ∧
    (0 < rightOverflow face oval ∧
     leftOverflow face oval < rightOverflow face oval ∧
     topOverflow face oval < rightOverflow face oval ∧
     bottomOverflow face oval < rightOverflow face oval →
       calculateGuidance face oval = FaceGuidance.move_left) ∧
    (0 < topOverflow face oval ∧
     leftOverflow face oval < topOverflow face oval ∧
     rightOverflow face oval < topOverflow face oval ∧
     bottomOverflow face oval < topOverflow face oval →
       calculateGuidance face oval = FaceGuidance.move_down) ∧
    (0 < bottomOverflow face oval ∧
     leftOverflow face oval < bottomOverflow face oval ∧
     rightOverflow face oval < bottomOverflow face oval ∧
     topOverflow face oval < bottomOverflow face oval →
       calculateGuidance face oval = FaceGuidance.move_up) := by
  have hn1 : ¬ sizeRatio face oval < 4 / 5 := not_lt.mpr hlo
  have hn2 : ¬ 23 / 20 < sizeRatio face oval := not_lt.mpr hhi
  refine ⟨fun h => ?_, fun h => ?_, fun h => ?_, fun h => ?_⟩ <;>
    obtain ⟨h0, ha, hb, hc⟩ := h <;> unfold calculateGuidance
  · rw [if_neg hn1, if_neg hn2,
      firstMaxOverflow_eq_left face oval ha.le hb.le hc.le, if_pos h0]
  · rw [if_neg hn1, if_neg hn2,
      firstMaxOverflow_eq_right face oval ha hb.le hc.le, if_pos h0]
  · rw [if_neg hn1, if_neg hn2,
      firstMaxOverflow_eq_top face oval ha hb hc.le, if_pos h0]
  · rw [if_neg hn1, if_neg hn2,
      firstMaxOverflow_eq_bottom face oval ha hb hc, if_pos h0]

/-- C6 witness: a face whose top overflow strictly dominates yields
move_down, the direction opposite the exceeded top edge. -/
theorem calculateGuidance_dominant_overflow_witness :
    calculateGuidance faceHigh ovalBounds = FaceGuidance.move_down :=
  (calculateGuidance_dominant_overflow faceHigh ovalBounds
    (by norm_num [sizeRatio, headSize, ovalSize, headWidth, headHeight, faceLeft,
      faceRight, faceTop, faceBottom, headPaddingSide, headPaddingTop,
      headPaddingBottom, faceHigh, ovalBounds, max_def])
    (by norm_num [sizeRatio, headSize, ovalSize, headWidth, headHeight, faceLeft,
      faceRight, faceTop, faceBottom, headPaddingSide, headPaddingTop,
      headPaddingBottom, faceHigh, ovalBounds, max_def])).2.2.1
    (by norm_num [leftOverflow, rightOverflow, topOverflow, bottomOverflow,
      ovalLeft, ovalRight, ovalTop, ovalBottom, faceLeft, faceRight, faceTop,
      faceBottom, headPaddingSide, headPaddingTop, headPaddingBottom,
      faceHigh, ovalBounds])

/-- C3 counterexample: the center of faceCenteredWide coincides with the
oval center and its size ratio is inside the acceptable band, yet
calculateGuidance returns move_right rather than hold_still, because
the padded head box is wider than the oval bounding rectangle and the
overflow check runs before the center check. -/
theorem calculateGuidance_centered_not_hold_still :
    faceCenteredWide.x + faceCenteredWide.width / 2 = ovalBounds.centerX ∧
    faceCenteredWide.y + faceCenteredWide.height / 2 = ovalBounds.centerY ∧
    4 / 5 ≤ sizeRatio faceCenteredWide ovalBounds ∧
    sizeRatio faceCenteredWide ovalBounds ≤ 23 / 20 ∧
    calculateGuidance faceCenteredWide ovalBounds = FaceGuidance.move_right ∧
    calculateGuidance faceCenteredWide ovalBounds ≠ FaceGuidance.hold_still := by
  norm_num [calculateGuidance, firstMaxOverflow, List.foldl_cons, List.foldl_nil,
    sizeRatio, headSize, ovalSize, headWidth, headHeight, faceLeft, faceRight,
    faceTop, faceBottom, faceCenterX, faceCenterY, headPaddingSide,
    headPaddingTop, headPaddingBottom, leftOverflow, rightOverflow, topOverflow,
    bottomOverflow, ovalLeft, ovalRight, ovalTop, ovalBottom, faceCenteredWide,
    ovalBounds, max_def, abs]
  decide

/-- C3 amended: when the padded head box is centered on the oval center,
the size ratio is inside the acceptable band, and no edge of the padded
head box extends beyond the oval bounding rectangle, calculateGuidance
returns hold_still. -/
theorem calculateGuidance_hold_still (face : FaceBounds) (oval : OvalBounds)
    (hx : faceCenterX face = oval.centerX) (hy : faceCenterY face = oval.centerY)
    (hlo : 4 / 5 ≤ sizeRatio face oval) (hhi : sizeRatio face oval ≤ 23 / 20)
    (hl : leftOverflow face oval ≤ 0) (hr : rightOverflow face oval ≤ 0)
    (ht : topOverflow face oval ≤ 0) (hb : bottomOverflow face oval ≤ 0) :
    calculateGuidance face oval = FaceGuidance.hold_still := by
  have hmax : ¬ 0 < (firstMaxOverflow face oval).1 := by
    unfold firstMaxOverflow
    simp only [List.foldl_cons, List.foldl_nil]
    split_ifs <;>
      first
        | exact not_lt.mpr hl
        | exact not_lt.mpr hr
        | exact not_lt.mpr ht
        | exact not_lt.mpr hb
  unfold calculateGuidance
  rw [if_neg (not_lt.mpr hlo), if_neg (not_lt.mpr hhi), if_neg hmax, hx, hy]
  simp
  norm_num

/-- C3 witness: a concrete face whose padded head box is centered in the
oval, sized inside the band, and fully inside the oval bounding
rectangle yields hold_still. -/
theorem calculateGuidance_hold_still_witness :
    calculateGuidance faceWellPlaced ovalBounds = FaceGuidance.hold_still :=
  calculateGuidance_hold_still faceWellPlaced ovalBounds
    (by norm_num [faceCenterX, faceLeft, faceRight, headPaddingSide,
      faceWellPlaced, ovalBounds])
    (by norm_num [faceCenterY, faceTop, faceBottom, headPaddingTop,
      headPaddingBottom, faceWellPlaced, ovalBounds])
    (by norm_num [sizeRatio, headSize, ovalSize, headWidth, headHeight, faceLeft,
      faceRight, faceTop, faceBottom, headPaddingSide, headPaddingTop,
      headPaddingBottom, faceWellPlaced, ovalBounds, max_def])
    (by norm_num [sizeRatio, headSize, ovalSize, headWidth, headHeight, faceLeft,
      faceRight, faceTop, faceBottom, headPaddingSide, headPaddingTop,
      headPaddingBottom, faceWellPlaced, ovalBounds, max_def])
    (by norm_num [leftOverflow, ovalLeft, faceLeft, headPaddingSide,
      faceWellPlaced, ovalBounds])
    (by norm_num [rightOverflow, ovalRight, faceRight, headPaddingSide,
      faceWellPlaced, ovalBounds])
    (by norm_num [topOverflow, ovalTop, faceTop, headPaddingTop,
      faceWellPlaced, ovalBounds])
    (by norm_num [bottomOverflow, ovalBottom, faceBottom, headPaddingBottom,
      faceWellPlaced, ovalBounds])

/-- C7: whenever the model is unavailable and initialization fails, or
loading the image throws, or face estimation throws, detectFace returns
the safe default result (faceDetected false, guidance no_face) instead
of propagating the error. -/
theorem detectFace_safe_default (ml initOk : Bool)
    (img : Except Unit DetectImage) (est : Except Unit (List Prediction))
    (oval : OvalBounds) (sens : Option ℚ)
    (h : (ml = false ∧ initOk = false) ∨
      img = Except.error () ∨ est = Except.error ()) :
    detectFace ml initOk img est oval sens = noFaceResult := by
  rcases h with ⟨h1, h2⟩ | h | h
  · subst h1
    subst h2
    rfl
  · subst h
    unfold detectFace
    split_ifs <;> rfl
  · subst h
    unfold detectFace
    split_ifs
    · rfl
    · cases img <;> rfl

/-- C7 witness: a failed initialization with no loaded model yields the
safe default on a well-formed image and empty estimation. -/
theorem detectFace_safe_default_witness :
    detectFace false false (Except.ok { width := 1, height := 1 })
      (Except.ok []) ovalBounds none = noFaceResult :=
  detectFace_safe_default false false (Except.ok { width := 1, height := 1 })
    (Except.ok []) ovalBounds none (Or.inl ⟨rfl, rfl⟩)

/-- C10: the result of detectFace does not depend on the sensitivity
value: the web implementation never reads it. -/
theorem detectFace_sensitivity_independent (ml initOk : Bool)
    (img : Except Unit DetectImage) (est : Except Unit (List Prediction))
    (oval : OvalBounds) (s1 s2 : Option ℚ) :
    detectFace ml initOk img est oval s1 = detectFace ml initOk img est oval s2 :=
  rfl

lemma compressLoop_length_le (encode : ℚ → ℕ) (targetBytes tolerance : ℕ) :
    ∀ (n : ℕ) (s : SearchState),
      (compressLoop encode targetBytes tolerance n s).1.length ≤ n := by
  intro n
  induction n with
  | zero =>
    intro s
    simp [compressLoop]
  | succ n ih =>
    intro s
    by_cases h : distTo targetBytes (encode s.q) < tolerance
    · simp [compressLoop, h]
    · simp only [compressLoop, h, if_neg, List.length_cons]
      exact Nat.succ_le_succ (ih _)

lemma compressLoop_dropLast_not_within (encode : ℚ → ℕ) (targetBytes tolerance : ℕ) :
    ∀ (n : ℕ) (s : SearchState),
      ∀ q ∈ (compressLoop encode targetBytes tolerance n s).1.dropLast,
        ¬ distTo targetBytes (encode q) < tolerance := by
  intro n
  induction n with
  | zero =>
    intro s q hq
    simp [compressLoop] at hq
  | succ n ih =>
    intro s q hq
    by_cases h : distTo targetBytes (encode s.q) < tolerance
    · simp [compressLoop, h] at hq
    · have hstep : compressLoop encode targetBytes tolerance (Nat.succ n) s =
          (s.q :: (compressLoop encode targetBytes tolerance n
            (nextState targetBytes s (encode s.q))).1,
           (compressLoop encode targetBytes tolerance n
            (nextState targetBytes s (encode s.q))).2) := by
        simp [compressLoop, h]
      rw [hstep] at hq
      rcases hr : (compressLoop encode targetBytes tolerance n
          (nextState targetBytes s (encode s.q))).1 with _ | ⟨x, xs⟩
      · rw [hr] at hq
        simp at hq
      · rw [hr] at hq
        rw [show (s.q :: x :: xs).dropLast = s.q :: (x :: xs).dropLast from rfl] at hq
        rcases List.mem_cons.mp hq with hq | hq
        · rw [hq]
          exact h
        · have hih := ih (nextState targetBytes s (encode s.q)) q
          rw [hr] at hih
          exact hih hq

/-- C2: the compression search terminates within the iteration bound,
passing at most 8 qualities to the encoder, and every probe except
possibly the last one is out of tolerance: the loop exits as soon as an
encoding is within the 1024-byte tolerance of the target. -/
theorem compressImage_iteration_bound (encode : ℚ → ℕ) (targetSizeKB : ℕ) :
    (compressTrace encode targetSizeKB).length ≤ 8 ∧
    ∀ q ∈ (compressTrace encode targetSizeKB).dropLast,
      ¬ distTo (targetSizeKB * 1024) (encode q) < 1024 := by
  constructor
  · exact compressLoop_length_le encode (targetSizeKB * 1024) 1024 8 compressInit
  · exact compressLoop_dropLast_not_within encode (targetSizeKB * 1024) 1024 8
      compressInit

/-- C2 witness: with an encoder that never comes near the 10240-byte
target, the trace is bounded by 8 and the very first probed quality
0.70 is among the probes that were out of tolerance. -/
theorem compressImage_iteration_bound_witness :
    (compressTrace (fun _ => 0) 10).length ≤ 8 ∧
    ¬ distTo (10 * 1024) ((fun _ => 0) (7 / 10 : ℚ)) < 1024 :=
  ⟨(compressImage_iteration_bound (fun _ => 0) 10).1,
   (compressImage_iteration_bound (fun _ => 0) 10).2 (7 / 10)
    (by norm_num [compressTrace, compressLoop, compressInit, nextState,
      updateBest, distTo])⟩

/-- C8: when the search loop finishes with no encoding produced, the
function surfaces the explicit compression-failure error instead of a
result; stated for the iteration-generalized form of compressImage, the
source hard-coding the bound 8. -/
theorem compressImage_error_when_no_encoding (encode : ℚ → ℕ)
    (targetSizeKB iters : ℕ)
    (h : (compressLoop encode (targetSizeKB * 1024) 1024 iters compressInit).2
      = none) :
    compressImageAux encode targetSizeKB iters =
      Except.error "Failed to compress image" := by
  unfold compressImageAux
  rw [h]

/-- C8 witness: with zero iterations no encoding is ever produced and
the explicit error is returned. -/
theorem compressImage_error_when_no_encoding_witness :
    compressImageAux (fun _ => 0) 10 0 =
      Except.error "Failed to compress image" :=
  compressImage_error_when_no_encoding (fun _ => 0) 10 0 rfl

lemma compressLoop_mem_bounds (encode : ℚ → ℕ) (targetBytes tolerance : ℕ)
    (lo hi : ℚ) :
    ∀ (n : ℕ) (s : SearchState), lo ≤ s.minQ → s.maxQ ≤ hi →
      s.minQ ≤ s.q → s.q ≤ s.maxQ →
      ∀ p ∈ (compressLoop encode targetBytes tolerance n s).1, lo ≤ p ∧ p ≤ hi := by
  intro n
  induction n with
  | zero =>
    intro s _ _ _ _ p hp
    simp [compressLoop] at hp
  | succ n ih =>
    intro s h1 h2 h3 h4 p hp
    by_cases h : distTo targetBytes (encode s.q) < tolerance
    · simp [compressLoop, h] at hp
      subst hp
      exact ⟨by linarith, by linarith⟩
    · have hstep : compressLoop encode targetBytes tolerance (Nat.succ n) s =
          (s.q :: (compressLoop encode targetBytes tolerance n
            (nextState targetBytes s (encode s.q))).1,
           (compressLoop encode targetBytes tolerance n
            (nextState targetBytes s (encode s.q))).2) := by
        simp [compressLoop, h]
      rw [hstep] at hp
      rcases List.mem_cons.mp hp with hp' | hp'
      · subst hp'
        exact ⟨by linarith, by linarith⟩
      · unfold nextState at hp'
        by_cases hs : targetBytes < encode s.q
        · rw [if_pos hs] at hp'
          refine ih ⟨s.minQ, s.q, (s.minQ + s.q) / 2,
            updateBest targetBytes s.q (encode s.q) s.best⟩ h1 (h4.trans h2) ?_ ?_ p hp'
          · show s.minQ ≤ (s.minQ + s.q) / 2
            linarith
          · show (s.minQ + s.q) / 2 ≤ s.q
            linarith
        · rw [if_neg hs] at hp'
          refine ih ⟨s.q, s.maxQ, (s.maxQ + s.q) / 2,
            updateBest targetBytes s.q (encode s.q) s.best⟩ (h1.trans h3) h2 ?_ ?_ p hp'
          · show s.q ≤ (s.maxQ + s.q) / 2
            linarith
          · show (s.maxQ + s.q) / 2 ≤ s.maxQ
            linarith

/-- C9: the state update of each iteration preserves the invariant
minQuality <= quality <= maxQuality, and consequently every quality
passed to the encoder stays within the initial range [0.10, 0.95]. -/
theorem compressImage_quality_in_range (encode : ℚ → ℕ) (targetSizeKB : ℕ) :
    (∀ (s : SearchState) (size : ℕ), s.minQ ≤ s.q → s.q ≤ s.maxQ →
      (nextState (targetSizeKB * 1024) s size).minQ ≤
          (nextState (targetSizeKB * 1024) s size).q ∧
        (nextState (targetSizeKB * 1024) s size).q ≤
          (nextState (targetSizeKB * 1024) s size).maxQ) ∧
    ∀ q ∈ compressTrace encode targetSizeKB, 1 / 10 ≤ q ∧ q ≤ 19 / 20 := by
  constructor
  · intro s size h1 h2
    unfold nextState
    split_ifs <;> dsimp <;> constructor <;> linarith
  · intro q hq
    exact compressLoop_mem_bounds encode (targetSizeKB * 1024) 1024 (1 / 10)
      (19 / 20) 8 compressInit (le_refl _) (le_refl _) (by norm_num [compressInit])
      (by norm_num [compressInit]) q hq

/-- C9 witness: the first probed quality 0.70 lies within [0.10, 0.95],
and a concrete in-invariant state stays in invariant after one update. -/
theorem compressImage_quality_in_range_witness :
    (1 / 10 : ℚ) ≤ 7 / 10 ∧ (7 / 10 : ℚ) ≤ 19 / 20 :=
  (compressImage_quality_in_range (fun _ => 10240) 10).2 (7 / 10)
    (by norm_num [compressTrace, compressLoop, compressInit, distTo])

lemma nextState_best (targetBytes : ℕ) (s : SearchState) (size : ℕ) :
    (nextState targetBytes s size).best = updateBest targetBytes s.q size s.best := by
  unfold nextState
  split_ifs <;> rfl

lemma updateBest_sound (encode : ℚ → ℕ) (targetBytes tolerance : ℕ) (s : SearchState)
    (hb : ∀ bq bs, s.best = some (bq, bs) →
      bs = encode bq ∧ tolerance ≤ distTo targetBytes bs)
    (h : ¬ distTo targetBytes (encode s.q) < tolerance) :
    ∀ bq bs, updateBest targetBytes s.q (encode s.q) s.best = some (bq, bs) →
      bs = encode bq ∧ tolerance ≤ distTo targetBytes bs := by
  intro bq bs hbs
  rcases hsb : s.best with _ | ⟨bq0, bs0⟩
  · rw [hsb] at hbs
    simp only [updateBest] at hbs
    obtain ⟨h1, h2⟩ : s.q = bq ∧ encode s.q = bs := by
      have hinj := Option.some.inj hbs
      exact ⟨congrArg Prod.fst hinj, congrArg Prod.snd hinj⟩
    subst h1
    subst h2
    exact ⟨rfl, le_of_not_lt h⟩
  · rw [hsb] at hbs
    simp only [updateBest] at hbs
    split_ifs at hbs
    · obtain ⟨h1, h2⟩ : s.q = bq ∧ encode s.q = bs := by
        have hinj := Option.some.inj hbs
        exact ⟨congrArg Prod.fst hinj, congrArg Prod.snd hinj⟩
      subst h1
      subst h2
      exact ⟨rfl, le_of_not_lt h⟩
    · obtain ⟨h1, h2⟩ : bq0 = bq ∧ bs0 = bs := by
        have hinj := Option.some.inj hbs
        exact ⟨congrArg Prod.fst hinj, congrArg Prod.snd hinj⟩
      subst h1
      subst h2
      exact hb _ _ hsb

lemma compressLoop_firstMin (encode : ℚ → ℕ) (targetBytes tolerance : ℕ) :
    ∀ (n : ℕ) (s : SearchState),
      (∀ bq bs, s.best = some (bq, bs) →
        bs = encode bq ∧ tolerance ≤ distTo targetBytes bs) →
      ∀ q size,
        (compressLoop encode targetBytes tolerance n s).2 = some (q, size) →
        size = encode q ∧
          firstMin encode targetBytes
            (bestList s.best ++ (compressLoop encode targetBytes tolerance n s).1) q := by
  intro n
  induction n with
  | zero =>
    intro s hb q size hres
    have hres' : s.best = some (q, size) := hres
    obtain ⟨hsz, htol⟩ := hb q size hres'
    refine ⟨hsz, [], [], ?_, ?_, ?_⟩
    · rw [hres']
      simp [bestList, compressLoop]
    · intro p hp
      exact absurd hp (List.not_mem_nil p)
    · intro p hp
      exact absurd hp (List.not_mem_nil p)
  | succ n ih =>
    intro s hb q size hres
    by_cases h : distTo targetBytes (encode s.q) < tolerance
    · have hstep1 : (compressLoop encode targetBytes tolerance (Nat.succ n) s).1 =
          [s.q] := by
        simp [compressLoop, h]
      have hstep2 : (compressLoop encode targetBytes tolerance (Nat.succ n) s).2 =
          some (s.q, encode s.q) := by
        simp [compressLoop, h]
      rw [hstep2] at hres
      obtain ⟨hq, hsz⟩ : s.q = q ∧ encode s.q = size := by
        have hinj := Option.some.inj hres
        exact ⟨congrArg Prod.fst hinj, congrArg Prod.snd hinj⟩
      subst hq
      subst hsz
      refine ⟨rfl, bestList s.best, [], ?_, ?_, ?_⟩
      · rw [hstep1]
      · intro p hp
        rcases hsb : s.best with _ | ⟨bq0, bs0⟩
        · rw [hsb] at hp
          simp [bestList] at hp
        · rw [hsb] at hp
          simp [bestList] at hp
          subst hp
          obtain ⟨he0, ht0⟩ := hb p bs0 hsb
          rw [← he0]
          exact lt_of_lt_of_le h ht0
      · intro p hp
        exact absurd hp (List.not_mem_nil p)
    · have hstep1 : (compressLoop encode targetBytes tolerance (Nat.succ n) s).1 =
          s.q :: (compressLoop encode targetBytes tolerance n
            (nextState targetBytes s (encode s.q))).1 := by
        simp [compressLoop, h]
      have hstep2 : (compressLoop encode targetBytes tolerance (Nat.succ n) s).2 =
          (compressLoop encode targetBytes tolerance n
            (nextState targetBytes s (encode s.q))).2 := by
        simp [compressLoop, h]
      rw [hstep2] at hres
      have hb' : ∀ bq bs,
          (nextState targetBytes s (encode s.q)).best = some (bq, bs) →
          bs = encode bq ∧ tolerance ≤ distTo targetBytes bs := by
        intro bq bs hbs
        rw [nextState_best] at hbs
        exact updateBest_sound encode targetBytes tolerance s hb h bq bs hbs
      obtain ⟨hsz, hfm⟩ := ih (nextState targetBytes s (encode s.q)) hb' q size hres
      refine ⟨hsz, ?_⟩
      rw [hstep1]
      rcases hsb : s.best with _ | ⟨bq0, bs0⟩
      · have hsb' : (nextState targetBytes s (encode s.q)).best =
            some (s.q, encode s.q) := by
          rw [nextState_best, hsb]
          rfl
        rw [hsb'] at hfm
        exact hfm
      · obtain ⟨he0, ht0⟩ := hb bq0 bs0 hsb
        simp only [bestList, List.singleton_append]
        by_cases hcmp : distTo targetBytes (encode s.q) < distTo targetBytes bs0
        · have hsb' : (nextState targetBytes s (encode s.q)).best =
              some (s.q, encode s.q) := by
            rw [nextState_best, hsb]
            simp only [updateBest]
            rw [if_pos hcmp]
          rw [hsb'] at hfm
          simp only [bestList, List.singleton_append] at hfm
          obtain ⟨l1, l2, hsplit, hstrict, hge⟩ := hfm
          have hq_le : distTo targetBytes (encode q) ≤
              distTo targetBytes (encode s.q) := by
            rcases l1 with _ | ⟨a, l1t⟩
            · obtain ⟨h1, h2⟩ : s.q = q ∧
                  (compressLoop encode targetBytes tolerance n
                    (nextState targetBytes s (encode s.q))).1 = l2 := by
                have h3 := hsplit
                simp only [List.nil_append, List.cons.injEq] at h3
                exact h3
              rw [h1]
            · obtain ⟨ha, hrest⟩ : a = s.q ∧
                  (compressLoop encode targetBytes tolerance n
                    (nextState targetBytes s (encode s.q))).1 = l1t ++ q :: l2 := by
                have h3 := hsplit
                simp only [List.cons_append, List.cons.injEq] at h3
                exact ⟨h3.1.symm, h3.2⟩
              have hlt := hstrict a (List.mem_cons_self a l1t)
              rw [ha] at hlt
              exact le_of_lt hlt
          refine ⟨bq0 :: l1, l2, ?_, ?_, hge⟩
          · simp only [List.cons_append]
            rw [hsplit]
          · intro p hp
            rcases List.mem_cons.mp hp with hp | hp
            · subst hp
              rw [← he0]
              exact lt_of_le_of_lt hq_le hcmp
            · exact hstrict p hp
        · have hsb' : (nextState targetBytes s (encode s.q)).best =
              some (bq0, bs0) := by
            rw [nextState_best, hsb]
            simp only [updateBest]
            rw [if_neg hcmp]
          rw [hsb'] at hfm
          simp only [bestList, List.singleton_append] at hfm
          obtain ⟨l1, l2, hsplit, hstrict, hge⟩ := hfm
          have hkey : distTo targetBytes bs0 ≤ distTo targetBytes (encode s.q) :=
            le_of_not_lt hcmp
          rcases l1 with _ | ⟨a, l1t⟩
          · obtain ⟨hq0, hl2⟩ : bq0 = q ∧
                (compressLoop encode targetBytes tolerance n
                  (nextState targetBytes s (encode s.q))).1 = l2 := by
              have h3 := hsplit
              simp only [List.nil_append, List.cons.injEq] at h3
              exact h3
            refine ⟨[], s.q :: l2, ?_, ?_, ?_⟩
            · simp only [List.nil_append]
              rw [hq0, hl2]
            · intro p hp
              exact absurd hp (List.not_mem_nil p)
            · intro p hp
              rcases List.mem_cons.mp hp with hp | hp
              · subst hp
                rw [← hq0, ← he0]
                exact hkey
              · exact hge p hp
          · obtain ⟨ha, hrest⟩ : a = bq0 ∧
                (compressLoop encode targetBytes tolerance n
                  (nextState targetBytes s (encode s.q))).1 = l1t ++ q :: l2 := by
              have h3 := hsplit
              simp only [List.cons_append, List.cons.injEq] at h3
              exact ⟨h3.1.symm, h3.2⟩
            subst ha
            refine ⟨a :: s.q :: l1t, l2, ?_, ?_, hge⟩
            · simp only [List.cons_append]
              rw [hrest]
            · intro p hp
              have hstrict_b : distTo targetBytes (encode q) <
                  distTo targetBytes (encode a) :=
                hstrict a (List.mem_cons_self a l1t)
              rcases List.mem_cons.mp hp with hp | hp
              · subst hp
                exact hstrict_b
              · rcases List.mem_cons.mp hp with hp | hp
                · subst hp
                  calc distTo targetBytes (encode q)
                      < distTo targetBytes (encode a) := hstrict_b
                    _ = distTo targetBytes bs0 := by rw [he0]
                    _ ≤ distTo targetBytes (encode s.q) := hkey
                · exact hstrict p (List.mem_cons_of_mem _ hp)

/-- C5: whatever blob compressImage returns was produced by the encoder
at the returned quality and is the first probe in the trace attaining
the minimal distance to the target: every earlier probe is strictly
farther from the target (so exact ties are won by the earlier probe, and
an early exit beats everything probed before it), and no later probe is
closer. -/
theorem compressImage_returns_closest (encode : ℚ → ℕ) (targetSizeKB : ℕ)
    (q : ℚ) (size : ℕ)
    (h : compressImage encode targetSizeKB = Except.ok (q, size)) :
    size = encode q ∧
      firstMin encode (targetSizeKB * 1024) (compressTrace encode targetSizeKB) q := by
  have hres : (compressLoop encode (targetSizeKB * 1024) 1024 8 compressInit).2 =
      some (q, size) := by
    unfold compressImage compressImageAux at h
    rcases hr : (compressLoop encode (targetSizeKB * 1024) 1024 8 compressInit).2
      with _ | r
    · rw [hr] at h
      simp at h
    · rw [hr] at h
      simp only [Except.ok.injEq] at h
      rw [h]
  have hmain := compressLoop_firstMin encode (targetSizeKB * 1024) 1024 8
    compressInit (by intro bq bs hbs; simp [compressInit] at hbs) q size hres
  simpa [bestList, compressInit, compressTrace] using hmain

/-- C5 witness: an encoder that hits the target exactly terminates on
the first probe, which is trivially the first minimal one. -/
theorem compressImage_returns_closest_witness :
    (10240 : ℕ) = (fun _ => 10240) (7 / 10 : ℚ) ∧
      firstMin (fun _ => 10240) (10 * 1024)
        (compressTrace (fun _ => 10240) 10) (7 / 10) :=
  compressImage_returns_closest (fun _ => 10240) 10 (7 / 10) 10240
    (by norm_num [compressImage, compressImageAux, compressLoop, compressInit,
      distTo])
